import Mathlib

/-!
# Region Resolution & Capability Routing — verification development

Shallow embedding of the repository's geo-routing core:
- `src/lib/geo/ip-detection.ts` (region classifier, IP validation, private-IP check)
- the `GeoRouter` class (detection chain, cache, in-flight coalescing)
- `src/lib/auth/client.ts` (`createAuthAdapter` / `getAuth` memoization)

Strings are modelled as Lean `String`; character-level scanning works on
`String.data`.  JavaScript `Number(...)` results are modelled as `Option Int`
(`none` = `NaN`), which is faithful on plain optionally-signed decimal-digit
strings and on the empty string (`Number("") = 0`); comparisons with `NaN`
are `false`, matching `none` on the `Option` side.
-/

/-- JS `s.split(sep)` for a single-character separator: splits on every
occurrence; the empty string yields `[""]`. -/
def splitOnChar (sep : Char) : List Char → List (List Char)
  | [] => [[]]
  | c :: rest =>
    let r := splitOnChar sep rest
    if c = sep then [] :: r
    else
      match r with
      | [] => [[c]]
      | p :: ps => (c :: p) :: ps

/-- `ip.split(".")` on the character list of a string. -/
def splitOnDot (l : List Char) : List (List Char) := splitOnChar '.' l

/-- JS `Number(...)` on an optionally-signed decimal-digit string:
`Number("") = 0`, digit strings parse, anything else is `NaN` (`none`). -/
def jsNumber (l : List Char) : Option Int :=
  match l with
  | [] => some 0
  | '-' :: rest =>
    if rest ≠ [] ∧ rest.all Char.isDigit then
      some (-(Int.ofNat (rest.foldl (fun a c => a * 10 + (c.toNat - '0'.toNat)) 0)))
    else none
  | _ =>
    if l.all Char.isDigit then
      some (Int.ofNat (l.foldl (fun a c => a * 10 + (c.toNat - '0'.toNat)) 0))
    else none

/-- JS `x >= n` where `x` may be `NaN` (`none`): `NaN` comparisons are false. -/
def jsGeNum (x : Option Int) (n : Int) : Bool :=
  match x with
  | some v => n ≤ v
  | none => false

/-- JS `x <= n` where `x` may be `NaN` (`none`). -/
def jsLeNum (x : Option Int) (n : Int) : Bool :=
  match x with
  | some v => v ≤ n
  | none => false

example : splitOnDot "10.0.0.5".data = [['1','0'], ['0'], ['0'], ['5']] := by decide
example : splitOnDot "".data = [[]] := by decide
example : jsNumber ['1','0'] = some 10 := by decide
example : jsNumber ['a','b','c'] = none := by decide

/-! ## `src/lib/geo/ip-detection.ts` — region classifier -/

/-- The `Region` string-literal union of `ip-detection.ts`:
`"china" | "usa" | "india" | "singapore" | "europe" | "other"`. -/
inductive Region where
  | china
  | usa
  | india
  | singapore
  | europe
  | other
  deriving DecidableEq, Repr

/-- The string value each `Region` member stands for in the source. -/
def Region.toStr : Region → String
  | .china => "china"
  | .usa => "usa"
  | .india => "india"
  | .singapore => "singapore"
  | .europe => "europe"
  | .other => "other"

/-- `EUROPEAN_COUNTRIES` (EU + EEA + UK + CH), verbatim from the source. -/
def EUROPEAN_COUNTRIES : List String :=
  ["AT", "BE", "BG", "HR", "CY", "CZ", "DK", "EE", "FI", "FR", "DE", "GR", "HU",
   "IE", "IT", "LV", "LT", "LU", "MT", "NL", "PL", "PT", "RO", "SK", "SI", "ES", "SE",
   "IS", "LI", "NO",
   "GB",
   "CH"]

/-- `getRegionFromCountryCode` from `ip-detection.ts`: the four target markets
checked by exact match, then membership in `EUROPEAN_COUNTRIES`, else other. -/
def getRegionFromCountryCode (countryCode : String) : Region :=
  if countryCode = "CN" then .china
  else if countryCode = "US" then .usa
  else if countryCode = "IN" then .india
  else if countryCode = "SG" then .singapore
  else if EUROPEAN_COUNTRIES.contains countryCode then .europe
  else .other

/-- `getDefaultLanguage` from `ip-detection.ts`. -/
def getDefaultLanguage (region : Region) : String :=
  if region = .china then "zh" else "en"

/-- `isEuropeanCountry` from `ip-detection.ts`. -/
def isEuropeanCountry (countryCode : String) : Bool :=
  EUROPEAN_COUNTRIES.contains countryCode

/-- Module-level `getPaymentMethodsByRegion` from `ip-detection.ts`. -/
def getPaymentMethodsByRegion (region : Region) : List String :=
  match region with
  | .china => ["wechat", "alipay"]
  | .europe => []
  | .usa | .india | .singapore | .other => ["stripe", "paypal"]

/-- Module-level `getCurrencyByRegion` from `ip-detection.ts`. -/
def getCurrencyByRegion (region : Region) : String :=
  match region with
  | .china => "CNY"
  | .europe => "EUR"
  | .usa | .india | .singapore | .other => "USD"

/-- `getDatabaseByRegion` from `ip-detection.ts`. -/
def getDatabaseByRegion (region : Region) : String :=
  match region with
  | .china => "cloudbase"
  | .europe | .usa | .india | .singapore | .other => "supabase"

/-- `getDeploymentByRegion` from `ip-detection.ts`. -/
def getDeploymentByRegion (region : Region) : String :=
  match region with
  | .china => "tencent"
  | .europe | .usa | .india | .singapore | .other => "vercel"

/-- `getAuthMethodsByRegion` from `ip-detection.ts` (note the extra
`"github"` entry relative to the `GeoRouter`'s private copy). -/
def getAuthMethodsByRegion (region : Region) : List String :=
  match region with
  | .china => ["wechat", "email"]
  | .europe => ["email"]
  | .usa | .india | .singapore | .other => ["google", "github", "email"]

/-- Shape of the object returned by `getRegionConfig`. -/
structure RegionConfig where
  region : Region
  countryCode : String
  currency : String
  paymentMethods : List String
  authMethods : List String
  database : String
  deployment : String
  language : String
  gdprCompliant : Bool
  deriving DecidableEq, Repr

/-- `getRegionConfig` from `ip-detection.ts`. -/
def getRegionConfig (countryCode : String) : RegionConfig :=
  let region := getRegionFromCountryCode countryCode
  { region := region
    countryCode := countryCode
    currency := getCurrencyByRegion region
    paymentMethods := getPaymentMethodsByRegion region
    authMethods := getAuthMethodsByRegion region
    database := getDatabaseByRegion region
    deployment := getDeploymentByRegion region
    language := getDefaultLanguage region
    gdprCompliant := isEuropeanCountry countryCode }

/-! ## `src/lib/geo/ip-detection.ts` — IP validation and private-IP check -/

/-- One octet of the IPv4 regex
`25[0-5]|2[0-4][0-9]|[01]?[0-9][0-9]?`: one digit, two digits, or three
digits starting `25x` (x in 0-5), `2xy` (x in 0-4), or `0`/`1` plus digits. -/
def matchesOctet (p : List Char) : Bool :=
  match p with
  | [a] => a.isDigit
  | [a, b] => a.isDigit && b.isDigit
  | [a, b, c] =>
    (a = '2' && b = '5' && '0' ≤ c && c ≤ '5') ||
    (a = '2' && '0' ≤ b && b ≤ '4' && c.isDigit) ||
    ((a = '0' || a = '1') && b.isDigit && c.isDigit)
  | _ => false

/-- An anchored match of the source's `ipv4Regex`: exactly four dot-separated
parts, each matching the octet alternation. -/
def ipv4Match (l : List Char) : Bool :=
  match splitOnDot l with
  | [a, b, c, d] => matchesOctet a && matchesOctet b && matchesOctet c && matchesOctet d
  | _ => false

/-- A hex digit, as in `[0-9a-fA-F]`. -/
def isHexDigitChar (c : Char) : Bool :=
  c.isDigit || ('a' ≤ c && c ≤ 'f') || ('A' ≤ c && c ≤ 'F')

/-- One group of the source's simplified `ipv6Regex`: 1 to 4 hex digits. -/
def matchesHexGroup (p : List Char) : Bool :=
  decide (1 ≤ p.length) && decide (p.length ≤ 4) && p.all isHexDigitChar

/-- An anchored match of the source's `ipv6Regex`
`^(?:[0-9a-fA-F]{1,4}:){7}[0-9a-fA-F]{1,4}$`: exactly eight colon-separated
hex groups. -/
def ipv6Match (l : List Char) : Bool :=
  match splitOnChar ':' l with
  | [a, b, c, d, e, f, g, h] =>
    matchesHexGroup a && matchesHexGroup b && matchesHexGroup c && matchesHexGroup d &&
    matchesHexGroup e && matchesHexGroup f && matchesHexGroup g && matchesHexGroup h
  | _ => false

/-- `isValidIP` from `ip-detection.ts`: falsy strings are invalid, otherwise
the IPv4 or the IPv6 regex must match. -/
def isValidIP (ip : String) : Bool :=
  if ip = "" then false
  else ipv4Match ip.data || ipv6Match ip.data

/-- The shared RFC1918 range test applied to `ip.split(".").map(Number)`:
`parts[0] === 10`, `parts[0] === 172 && 16 <= parts[1] <= 31`, or
`parts[0] === 192 && parts[1] === 168`; any split of length other than four
yields `false`. -/
def privateRangeCheck (ip : String) : Bool :=
  match (splitOnDot ip.data).map jsNumber with
  | [a, b, _, _] =>
    a = some 10 ||
    (a = some 172 && jsGeNum b 16 && jsLeNum b 31) ||
    (a = some 192 && b = some 168)
  | _ => false

/-- Module-level `isPrivateIP` from `ip-detection.ts`: an invalid IP is
treated as private, otherwise the RFC1918 range test decides. -/
def isPrivateIP (ip : String) : Bool :=
  if !(isValidIP ip) then true
  else privateRangeCheck ip

example : isValidIP "10.0.0.5" = true := by decide
example : isValidIP "abc" = false := by decide
example : isPrivateIP "abc" = true := by decide
example : privateRangeCheck "10.0.0.5" = true := by decide
example : privateRangeCheck "abc" = false := by decide
example : getRegionFromCountryCode "DE" = .europe := by decide
example : getRegionFromCountryCode "ZZ" = .other := by decide

/-! ## `src/lib/core/types.ts` — `RegionType` and `GeoResult` -/

/-- The `RegionType` enum of `core/types.ts`. -/
inductive RegionType where
  | china
  | usa
  | europe
  | india
  | singapore
  | other
  deriving DecidableEq, Repr

/-- The `GeoResult` interface of `core/types.ts`. -/
structure GeoResult where
  region : RegionType
  countryCode : String
  currency : String
  paymentMethods : List String
  authMethods : List String
  database : String
  deployment : String
  gdprCompliant : Bool
  deriving DecidableEq, Repr

/-! ## `GeoRouter` — pure helpers (`buildGeoResult` and friends) -/

namespace GeoRouter

/-- `GeoRouter.mapToRegionType`: maps the `Region` string union onto the
`RegionType` enum, defaulting to `OTHER`. -/
def mapToRegionType (region : String) : RegionType :=
  if region = "china" then .china
  else if region = "usa" then .usa
  else if region = "europe" then .europe
  else if region = "india" then .india
  else if region = "singapore" then .singapore
  else .other

/-- `GeoRouter.getCurrencyByRegion` (private copy inside the router). -/
def getCurrencyByRegion (region : RegionType) : String :=
  match region with
  | .china => "CNY"
  | .europe => "EUR"
  | _ => "USD"

/-- `GeoRouter.getPaymentMethodsByRegion` (private copy inside the router). -/
def getPaymentMethodsByRegion (region : RegionType) : List String :=
  match region with
  | .china => ["wechat", "alipay"]
  | .europe => []
  | _ => ["stripe", "paypal"]

/-- `GeoRouter.getAuthMethods` (note: no `"github"` entry, unlike the
module-level `getAuthMethodsByRegion`). -/
def getAuthMethods (region : RegionType) : List String :=
  match region with
  | .china => ["wechat", "email"]
  | .europe => ["email"]
  | _ => ["google", "email"]

/-- `GeoRouter.buildGeoResult`: classifies the country code and fills every
capability field from the region, except `countryCode` itself and
`gdprCompliant`, which the code computes from `countryCode`. -/
def buildGeoResult (countryCode : String) : GeoResult :=
  let region := mapToRegionType (getRegionFromCountryCode countryCode).toStr
  { region := region
    countryCode := countryCode
    currency := getCurrencyByRegion region
    paymentMethods := getPaymentMethodsByRegion region
    authMethods := getAuthMethods region
    database := if region = .china then "cloudbase" else "supabase"
    deployment := if region = .china then "tencent" else "vercel"
    gdprCompliant := isEuropeanCountry countryCode }

/-- `GeoRouter.isPrivateIP` (the router's private copy, with no validity
pre-check): `ip.split(".").map(Number)`, four parts required, RFC1918 test. -/
def isPrivateIP (ip : String) : Bool := privateRangeCheck ip

/-- `GeoRouter.detectLocally`: private IPs get the hardcoded China default,
everything else the hardcoded overseas (`US`) default. -/
def detectLocally (ip : String) : GeoResult :=
  if isPrivateIP ip then buildGeoResult "CN"
  else buildGeoResult "US"

/-- `GeoRouter.getDefaultGeoResult`: the last-resort descriptor returned when
the whole pipeline fails. -/
def getDefaultGeoResult : GeoResult :=
  { region := .usa
    countryCode := "US"
    currency := "USD"
    paymentMethods := ["stripe", "paypal"]
    authMethods := ["google", "email"]
    database := "supabase"
    deployment := "vercel"
    gdprCompliant := false }

/-! ### Detection chain

`performDetection` tries `detectWithPrimaryService`, `detectWithFallbackService`,
`detectWithThirdFallback`, `detectLocally` in order, committing to the first
method that returns a result and treating a thrown error as "try the next".
Each of the three network strategies starts with the same guard

`if (!ip || ip === "" || ip === "::1" || ip === "127.0.0.1") return this.detectLocally(ip);`

and otherwise issues an HTTP lookup whose outcome we model by an oracle
`oc : Nat → Option String` giving, per strategy index `0`, `1`, `2`, either a
country code extracted from the response (`data.country_code`,
`data.countryCode`, `data.country` respectively) or `none` for any of the
strategy's failure modes (non-2xx status, vendor error field, missing field,
timeout).  A run is traced: which strategies were invoked, and which of them
actually issued a network fetch. -/

/-- The loopback/empty-IP guard shared by the three network strategies
(`!ip` on a string is truthy exactly for `""`, so the first two disjuncts
coincide). -/
def shortcutCheck (ip : String) : Bool :=
  ip = "" || ip = "" || ip = "::1" || ip = "127.0.0.1"

/-- One strategy of the chain, by index: `0`, `1`, `2` are the network
strategies (guard first, then a fetch recorded in the second component,
interpreted through the oracle), `3` is `detectLocally`.  Returns
`(some result | none for a thrown error, fetches issued)`. -/
def runStrategy (oc : Nat → Option String) (ip : String) (i : Nat) :
    Option GeoResult × List Nat :=
  if i < 3 then
    if shortcutCheck ip then (some (detectLocally ip), [])
    else
      match oc i with
      | some cc => (some (buildGeoResult cc), [i])
      | none => (none, [i])
  else (some (detectLocally ip), [])

/-- The `for`-loop of `performDetection` over a list of strategy indices:
first returned result wins; errors advance to the next method; if every
method fails the chain throws (`.error ()`).  The trace records the invoked
strategy indices and all network fetches issued. -/
def runChainFrom (oc : Nat → Option String) (ip : String) :
    List Nat → Except Unit GeoResult × (List Nat × List Nat)
  | [] => (.error (), ([], []))
  | i :: rest =>
    let s := runStrategy oc ip i
    match s.1 with
    | some r => (.ok r, ([i], s.2))
    | none =>
      let t := runChainFrom oc ip rest
      (t.1, (i :: t.2.1, s.2 ++ t.2.2))

/-- `GeoRouter.performDetection`: the four methods in their fixed order. -/
def performDetection (oc : Nat → Option String) (ip : String) :
    Except Unit GeoResult × (List Nat × List Nat) :=
  runChainFrom oc ip [0, 1, 2, 3]

end GeoRouter

/-- An oracle on which every network lookup fails. -/
def ocAllFail : Nat → Option String := fun _ => none

example : GeoRouter.shortcutCheck "10.0.0.5" = false := by decide
example : GeoRouter.isPrivateIP "10.0.0.5" = true := by decide
example : GeoRouter.isPrivateIP "::1" = false := by decide
example : GeoRouter.isPrivateIP "127.0.0.1" = false := by decide
example : (GeoRouter.performDetection ocAllFail "10.0.0.5").1 =
    .ok (GeoRouter.buildGeoResult "CN") := rfl
example : (GeoRouter.performDetection ocAllFail "10.0.0.5").2.2 = [0, 1, 2] := by decide
example : (GeoRouter.performDetection ocAllFail "::1").2.2 = [] := by decide

/-! ## `GeoRouter.detect` — cache, in-flight coalescing, fallback

`detect` runs single-threaded up to its first `await`: it checks the cache,
checks `pendingRequests`, and — when both miss — calls `performDetection`
(starting a new chain execution) and stores the resulting promise in
`pendingRequests`, all within one synchronous prefix.  We model that prefix
as the atomic step `detectStep`; the continuation after the `await`
(`try { cache result } catch { cache default } finally { delete pending }`)
is the step `detectComplete`, parametrised by how the chain's promise
resolved.  JS `Map` is modelled as an association list with
overwrite-on-`set`; chain executions are numbered so they can be counted. -/

/-- A `this.cache` entry: `{ result, timestamp }`. -/
structure CacheEntry where
  result : GeoResult
  timestamp : Nat
  deriving DecidableEq, Repr

/-- `Map.get`: first binding for the key. -/
def mapGet {α : Type} (k : String) : List (String × α) → Option α
  | [] => none
  | (k', v) :: rest => if k' = k then some v else mapGet k rest

/-- `Map.set`: overwrite the binding if present, else append. -/
def mapSet {α : Type} (k : String) (v : α) : List (String × α) → List (String × α)
  | [] => [(k, v)]
  | (k', v') :: rest => if k' = k then (k, v) :: rest else (k', v') :: mapSet k v rest

/-- `Map.delete`. -/
def mapDelete {α : Type} (k : String) : List (String × α) → List (String × α)
  | [] => []
  | (k', v') :: rest => if k' = k then mapDelete k rest else (k', v') :: mapDelete k rest

/-- The mutable state of a `GeoRouter` instance: the result cache, the
in-flight promise map (promises identified by chain-execution number), and
the number of chain executions started so far. -/
structure RouterState where
  cache : List (String × CacheEntry)
  pending : List (String × Nat)
  chainCount : Nat
  deriving DecidableEq, Repr

namespace GeoRouter

/-- `CACHE_TTL = 1000 * 60 * 60` (one hour). -/
def CACHE_TTL : Nat := 1000 * 60 * 60

/-- `options.cacheTTL || this.CACHE_TTL`: an absent or zero (falsy) override
falls back to the default TTL. -/
def effectiveTTL (cacheTTLopt : Option Nat) : Nat :=
  match cacheTTLopt with
  | some t => if t = 0 then CACHE_TTL else t
  | none => CACHE_TTL

/-- What the synchronous prefix of one `detect` call did. -/
inductive DetectOutcome where
  | served (r : GeoResult)
  | joined (k : Nat)
  | started (k : Nat)
  deriving DecidableEq, Repr

/-- The no-fresh-cache path of `detect`: the `pendingRequests` check, then a
new chain execution recorded in `pendingRequests`. -/
def detectStepMiss (ip : String) (s : RouterState) : DetectOutcome × RouterState :=
  match mapGet ip s.pending with
  | some k => (.joined k, s)
  | none =>
    (.started s.chainCount,
     { s with pending := mapSet ip s.chainCount s.pending,
              chainCount := s.chainCount + 1 })

/-- The synchronous prefix of `detect(ip, options)` at time `now`: serve a
fresh cache entry, else join a pending chain, else start chain number
`s.chainCount` and record it in `pendingRequests`. -/
def detectStep (ip : String) (now : Nat) (cacheTTLopt : Option Nat) (s : RouterState) :
    DetectOutcome × RouterState :=
  let cacheTTL := effectiveTTL cacheTTLopt
  match mapGet ip s.cache with
  | some e =>
    if (now : Int) - e.timestamp < (cacheTTL : Int) then (.served e.result, s)
    else detectStepMiss ip s
  | none => detectStepMiss ip s

/-- The continuation of the starting caller once chain `k`'s promise settles
(`res = .ok r` resolution, `res = .error ()` rejection):
`try` caches the result, `catch` caches `getDefaultGeoResult`, `finally`
deletes the pending entry; the first component is what that caller's
`detect` returns. -/
def detectComplete (ip : String) (res : Except Unit GeoResult) (now : Nat)
    (s : RouterState) : GeoResult × RouterState :=
  match res with
  | .ok r =>
    (r, { s with cache := mapSet ip ⟨r, now⟩ s.cache,
                 pending := mapDelete ip s.pending })
  | .error _ =>
    (getDefaultGeoResult,
     { s with cache := mapSet ip ⟨getDefaultGeoResult, now⟩ s.cache,
              pending := mapDelete ip s.pending })

/-- What a caller's `detect` promise ultimately yields, given the outcome of
its synchronous prefix and the resolution of the (unique) chain execution in
flight: a served caller already has its value; a joining caller returns the
pending promise itself, so it settles exactly as the chain does; the starting
caller awaits the chain under `try`/`catch` and converts a rejection into the
default descriptor. -/
def callerResult (o : DetectOutcome) (res : Except Unit GeoResult) :
    Except Unit GeoResult :=
  match o with
  | .served r => .ok r
  | .joined _ => res
  | .started _ =>
    match res with
    | .ok r => .ok r
    | .error _ => .ok getDefaultGeoResult

/-- `n` concurrent `detect` calls for the same IP whose synchronous prefixes
all run before the chain's promise settles (the JS event loop interleaves
them only at `await` points): the outcomes in arrival order, and the state
after all prefixes. -/
def runCalls (ip : String) (now : Nat) (cacheTTLopt : Option Nat) :
    Nat → RouterState → List DetectOutcome × RouterState
  | 0, s => ([], s)
  | n + 1, s =>
    let p := detectStep ip now cacheTTLopt s
    let t := runCalls ip now cacheTTLopt n p.2
    (p.1 :: t.1, t.2)

end GeoRouter

/-! ## `src/lib/auth/client.ts` — adapter factory and singleton -/

/-- The `DeploymentRegion` enum of `core/types.ts`. -/
inductive DeploymentRegion where
  | CN
  | INTL
  deriving DecidableEq, Repr

/-- Which concrete adapter class a constructed instance belongs to. -/
inductive AuthAdapterKind where
  | cloudbase
  | supabase
  deriving DecidableEq, Repr

/-- A constructed adapter object; `objId` is a fresh allocation number so
that reference identity (`===`) is expressible as equality of `objId`. -/
structure AuthAdapterInstance where
  kind : AuthAdapterKind
  objId : Nat
  deriving DecidableEq, Repr

/-- The module-level mutable state around `getAuth`: the
`authInstance : AuthAdapter | null` singleton plus an allocation counter. -/
structure AuthModuleState where
  authInstance : Option AuthAdapterInstance
  nextObjId : Nat
  deriving DecidableEq, Repr

/-- `createAuthAdapter`: `new CloudBaseAuthAdapter()` for `CN`, else
`new SupabaseAuthAdapter()`; each `new` yields a fresh object. -/
def createAuthAdapter (region : DeploymentRegion) (objId : Nat) : AuthAdapterInstance :=
  match region with
  | .CN => ⟨.cloudbase, objId⟩
  | .INTL => ⟨.supabase, objId⟩

/-- `getAuth(region?)`: `targetRegion` defaults from the deployment
configuration (`isChinaRegion()`, modelled as the boolean `deployIsChina`);
the singleton is constructed only when `authInstance` is still `null` and is
returned unchanged on every later call. -/
def getAuth (regionOpt : Option DeploymentRegion) (deployIsChina : Bool)
    (g : AuthModuleState) : AuthAdapterInstance × AuthModuleState :=
  let targetRegion :=
    match regionOpt with
    | some r => r
    | none => if deployIsChina then DeploymentRegion.CN else DeploymentRegion.INTL
  match g.authInstance with
  | some a => (a, g)
  | none =>
    let a := createAuthAdapter targetRegion g.nextObjId
    (a, ⟨some a, g.nextObjId + 1⟩)

/-! ## Helper lemmas -/

/-- The four target-market codes are not European, so `isEuropeanCountry`
holds exactly when classification lands in `europe`. -/
theorem isEuropeanCountry_iff (c : String) :
    isEuropeanCountry c = true ↔ getRegionFromCountryCode c = Region.europe := by
  unfold getRegionFromCountryCode
  split_ifs with h1 h2 h3 h4 h5
  · subst h1; decide
  · subst h2; decide
  · subst h3; decide
  · subst h4; decide
  · exact ⟨fun _ => rfl, fun _ => h5⟩
  · exact ⟨fun hb => absurd hb h5, fun hb => absurd hb (by decide)⟩

/-- In `buildGeoResult`, the `gdprCompliant` flag (computed from the country
code) coincides with the region being `europe`. -/
theorem buildGeoResult_gdpr (c : String) :
    (GeoRouter.buildGeoResult c).gdprCompliant =
      decide ((GeoRouter.buildGeoResult c).region = RegionType.europe) := by
  show isEuropeanCountry c =
    decide (GeoRouter.mapToRegionType (getRegionFromCountryCode c).toStr = RegionType.europe)
  unfold getRegionFromCountryCode isEuropeanCountry
  split_ifs with h1 h2 h3 h4 h5
  · subst h1; decide
  · subst h2; decide
  · subst h3; decide
  · subst h4; decide
  · rw [h5]; decide
  · rw [Bool.not_eq_true] at h5; rw [h5]; decide

/-- In `getRegionConfig`, the `gdprCompliant` flag coincides with the region
being `europe`. -/
theorem getRegionConfig_gdpr (c : String) :
    (getRegionConfig c).gdprCompliant =
      decide ((getRegionConfig c).region = Region.europe) := by
  show isEuropeanCountry c = decide (getRegionFromCountryCode c = Region.europe)
  by_cases h : getRegionFromCountryCode c = Region.europe
  · simp [h, (isEuropeanCountry_iff c).mpr h]
  · simp only [h, decide_eq_false_iff_not, decide_False]
    cases hb : isEuropeanCountry c
    · rfl
    · exact absurd ((isEuropeanCountry_iff c).mp hb) h

/-! ## Claims -/

/-- C1: for any two country-code strings, if classification yields the same
region (in `GeoRouter.buildGeoResult` or in `getRegionConfig`), the
resulting descriptors agree on every field other than `countryCode`:
currency, payment methods, auth methods, database, deployment (and language
for `getRegionConfig`), and the `gdprCompliant` flag, which the code
computes from the country code, are all fully determined by the region. -/
theorem C1_region_determines_capabilities (c1 c2 : String) :
    ((GeoRouter.buildGeoResult c1).region = (GeoRouter.buildGeoResult c2).region →
      (GeoRouter.buildGeoResult c1).currency = (GeoRouter.buildGeoResult c2).currency ∧
      (GeoRouter.buildGeoResult c1).paymentMethods = (GeoRouter.buildGeoResult c2).paymentMethods ∧
      (GeoRouter.buildGeoResult c1).authMethods = (GeoRouter.buildGeoResult c2).authMethods ∧
      (GeoRouter.buildGeoResult c1).database = (GeoRouter.buildGeoResult c2).database ∧
      (GeoRouter.buildGeoResult c1).deployment = (GeoRouter.buildGeoResult c2).deployment ∧
      (GeoRouter.buildGeoResult c1).gdprCompliant = (GeoRouter.buildGeoResult c2).gdprCompliant) ∧
    ((getRegionConfig c1).region = (getRegionConfig c2).region →
      (getRegionConfig c1).currency = (getRegionConfig c2).currency ∧
      (getRegionConfig c1).paymentMethods = (getRegionConfig c2).paymentMethods ∧
      (getRegionConfig c1).authMethods = (getRegionConfig c2).authMethods ∧
      (getRegionConfig c1).database = (getRegionConfig c2).database ∧
      (getRegionConfig c1).deployment = (getRegionConfig c2).deployment ∧
      (getRegionConfig c1).language = (getRegionConfig c2).language ∧
      (getRegionConfig c1).gdprCompliant = (getRegionConfig c2).gdprCompliant) := by
  constructor
  · intro hr
    refine ⟨congrArg GeoRouter.getCurrencyByRegion hr,
      congrArg GeoRouter.getPaymentMethodsByRegion hr,
      congrArg GeoRouter.getAuthMethods hr,
      congrArg (fun r => if r = RegionType.china then "cloudbase" else "supabase") hr,
      congrArg (fun r => if r = RegionType.china then "tencent" else "vercel") hr, ?_⟩
    rw [buildGeoResult_gdpr c1, buildGeoResult_gdpr c2, hr]
  · intro hr
    refine ⟨congrArg getCurrencyByRegion hr,
      congrArg getPaymentMethodsByRegion hr,
      congrArg getAuthMethodsByRegion hr,
      congrArg getDatabaseByRegion hr,
      congrArg getDeploymentByRegion hr,
      congrArg getDefaultLanguage hr, ?_⟩
    rw [getRegionConfig_gdpr c1, getRegionConfig_gdpr c2, hr]

/-- Witness for C1 at the concrete pair `"DE"`, `"FR"` (both classify to the
`europe` region). -/
theorem C1_region_determines_capabilities_witness :
    (GeoRouter.buildGeoResult "DE").region = (GeoRouter.buildGeoResult "FR").region ∧
    (GeoRouter.buildGeoResult "DE").currency = (GeoRouter.buildGeoResult "FR").currency ∧
    (getRegionConfig "DE").gdprCompliant = (getRegionConfig "FR").gdprCompliant :=
  ⟨by decide,
   ((C1_region_determines_capabilities "DE" "FR").1 (by decide)).1,
   (((((((C1_region_determines_capabilities "DE" "FR").2 (by decide)).2).2).2).2).2).2⟩

/-- A string whose dot-split does not have exactly four parts fails the
shared RFC1918 range test. -/
theorem privateRangeCheck_of_len (ip : String)
    (h : (splitOnDot ip.data).length ≠ 4) : privateRangeCheck ip = false := by
  unfold privateRangeCheck
  generalize hl : (splitOnDot ip.data).map jsNumber = l
  have h' : l.length ≠ 4 := by rw [← hl, List.length_map]; exact h
  match l, h' with
  | [], _ => rfl
  | [_], _ => rfl
  | [_, _], _ => rfl
  | [_, _, _], _ => rfl
  | [_, _, _, _], h' => exact absurd rfl h'
  | _ :: _ :: _ :: _ :: _ :: _, _ => rfl

/-- C10: the two private-IP checks are not equivalent.  The module-level
`isPrivateIP` of `ip-detection.ts` returns `true` on every string rejected
by `isValidIP`, while the router's internal check returns `false` on every
string that does not split into exactly four dotted parts; they disagree on
the syntactically invalid input `"abc"`. -/
theorem C10_private_ip_checks_disagree :
    (∀ ip : String, isValidIP ip = false → isPrivateIP ip = true) ∧
    (∀ ip : String, (splitOnDot ip.data).length ≠ 4 → GeoRouter.isPrivateIP ip = false) ∧
    (isValidIP "abc" = false ∧ isPrivateIP "abc" = true ∧
      GeoRouter.isPrivateIP "abc" = false) := by
  refine ⟨?_, ?_, by decide, by decide, by decide⟩
  · intro ip h
    unfold isPrivateIP
    rw [h]
    rfl
  · intro ip h
    exact privateRangeCheck_of_len ip h

/-- Witness for C10 at the concrete invalid input `"xy"`. -/
theorem C10_private_ip_checks_disagree_witness :
    isValidIP "xy" = false ∧ isPrivateIP "xy" = true ∧
    GeoRouter.isPrivateIP "xy" = false :=
  ⟨by decide,
   C10_private_ip_checks_disagree.1 "xy" (by decide),
   C10_private_ip_checks_disagree.2.1 "xy" (by decide)⟩

/-- C9: for the empty IP and the two loopback IPs, every detection run takes
the no-network shortcut (no fetches, only strategy 0 invoked) and the local
heuristic yields the international `US` result, because the router's
private-IP check returns `false` on each of them (the first two do not even
split into four dotted parts). -/
theorem C9_loopback_shortcut (oc : Nat → Option String) :
    (GeoRouter.isPrivateIP "" = false ∧ GeoRouter.isPrivateIP "::1" = false ∧
      GeoRouter.isPrivateIP "127.0.0.1" = false) ∧
    ((splitOnDot "".data).length = 1 ∧ (splitOnDot "::1".data).length = 1 ∧
      (splitOnDot "127.0.0.1".data).length = 4) ∧
    (GeoRouter.performDetection oc "" =
        (.ok (GeoRouter.buildGeoResult "US"), ([0], [])) ∧
      GeoRouter.performDetection oc "::1" =
        (.ok (GeoRouter.buildGeoResult "US"), ([0], [])) ∧
      GeoRouter.performDetection oc "127.0.0.1" =
        (.ok (GeoRouter.buildGeoResult "US"), ([0], []))) ∧
    (GeoRouter.buildGeoResult "US").region = RegionType.usa ∧
    (GeoRouter.buildGeoResult "US").region ≠ RegionType.china :=
  ⟨⟨by decide, by decide, by decide⟩,
   ⟨by decide, by decide, by decide⟩,
   ⟨rfl, rfl, rfl⟩,
   by decide, by decide⟩

/-- Witness for C9 at the all-failing oracle. -/
theorem C9_loopback_shortcut_witness :
    GeoRouter.performDetection ocAllFail "::1" =
      (.ok (GeoRouter.buildGeoResult "US"), ([0], [])) :=
  (C9_loopback_shortcut ocAllFail).2.2.1.2.1

/-- The detection chain always succeeds: the final `detectLocally` method
cannot throw, so `performDetection` never reaches its trailing
`throw new Error("All geo detection methods failed")`. -/
theorem performDetection_total (oc : Nat → Option String) (ip : String) :
    ∃ r, (GeoRouter.performDetection oc ip).1 = .ok r := by
  by_cases hs : GeoRouter.shortcutCheck ip = true
  · exact ⟨GeoRouter.detectLocally ip,
      by simp [GeoRouter.performDetection, GeoRouter.runChainFrom,
        GeoRouter.runStrategy, hs]⟩
  · rw [Bool.not_eq_true] at hs
    cases h0 : oc 0 with
    | some cc => exact ⟨GeoRouter.buildGeoResult cc,
        by simp [GeoRouter.performDetection, GeoRouter.runChainFrom,
          GeoRouter.runStrategy, hs, h0]⟩
    | none =>
      cases h1 : oc 1 with
      | some cc => exact ⟨GeoRouter.buildGeoResult cc,
          by simp [GeoRouter.performDetection, GeoRouter.runChainFrom,
            GeoRouter.runStrategy, hs, h0, h1]⟩
      | none =>
        cases h2 : oc 2 with
        | some cc => exact ⟨GeoRouter.buildGeoResult cc,
            by simp [GeoRouter.performDetection, GeoRouter.runChainFrom,
              GeoRouter.runStrategy, hs, h0, h1, h2]⟩
        | none => exact ⟨GeoRouter.detectLocally ip,
            by simp [GeoRouter.performDetection, GeoRouter.runChainFrom,
              GeoRouter.runStrategy, hs, h0, h1, h2]⟩

/-- C3: the public entry point never throws.  The chain itself always
produces a result; if the pipeline nevertheless rejects (an unexpected
exception), the starting caller's `catch` converts the rejection into the
generic international default descriptor — region `USA`, currency `USD`,
payment methods stripe/paypal, `gdprCompliant = false` — which is never the
China-specific region; the China region can only come out of the local
heuristic on a private IP. -/
theorem C3_detect_never_throws (oc : Nat → Option String) (ip : String)
    (s : RouterState) (now : Nat) :
    (∃ r, (GeoRouter.performDetection oc ip).1 = .ok r) ∧
    (GeoRouter.detectComplete ip (.error ()) now s).1 = GeoRouter.getDefaultGeoResult ∧
    (∀ res : Except Unit GeoResult, ∀ k : Nat,
      ∃ r, GeoRouter.callerResult (.started k) res = .ok r) ∧
    GeoRouter.getDefaultGeoResult.region = RegionType.usa ∧
    GeoRouter.getDefaultGeoResult.currency = "USD" ∧
    GeoRouter.getDefaultGeoResult.paymentMethods = ["stripe", "paypal"] ∧
    GeoRouter.getDefaultGeoResult.gdprCompliant = false ∧
    GeoRouter.getDefaultGeoResult.region ≠ RegionType.china ∧
    ((GeoRouter.detectLocally ip).region = RegionType.china →
      GeoRouter.isPrivateIP ip = true) := by
  refine ⟨performDetection_total oc ip, rfl, ?_, by decide, by decide, by decide,
    by decide, by decide, ?_⟩
  · intro res k
    cases res with
    | ok r => exact ⟨r, rfl⟩
    | error e => exact ⟨GeoRouter.getDefaultGeoResult, rfl⟩
  · intro hreg
    cases hp : GeoRouter.isPrivateIP ip
    · exact absurd hreg (by simp [GeoRouter.detectLocally, hp]; decide)
    · rfl

/-- Witness for C3 at a private IP with the all-failing oracle. -/
theorem C3_detect_never_throws_witness :
    (GeoRouter.detectLocally "10.0.0.5").region = RegionType.china ∧
    GeoRouter.isPrivateIP "10.0.0.5" = true :=
  ⟨by decide,
   (C3_detect_never_throws ocAllFail "10.0.0.5" ⟨[], [], 0⟩ 0).2.2.2.2.2.2.2.2
     (by decide)⟩

/-- C4: within one resolution the strategies are attempted strictly in their
fixed order — the invoked indices always form the prefix `0, …, k` of the
chain for the first `k` that succeeds — and the chain commits to the first
usable result: if strategy 2 (index 1) succeeds, strategy 3 (index 2) and
the local heuristic (index 3) are never invoked, and when strategy 1 failed
the run stops exactly after strategy 2 with its result. -/
theorem C4_chain_order (oc : Nat → Option String) (ip : String) (r : String) :
    (∃ k, k ≤ 3 ∧ (GeoRouter.performDetection oc ip).2.1 = List.range (k + 1)) ∧
    (GeoRouter.shortcutCheck ip = false → oc 1 = some r →
      2 ∉ (GeoRouter.performDetection oc ip).2.1 ∧
      3 ∉ (GeoRouter.performDetection oc ip).2.1 ∧
      (oc 0 = none →
        GeoRouter.performDetection oc ip =
          (.ok (GeoRouter.buildGeoResult r), ([0, 1], [0, 1])))) := by
  constructor
  · by_cases hs : GeoRouter.shortcutCheck ip = true
    · exact ⟨0, by omega,
        by simp [GeoRouter.performDetection, GeoRouter.runChainFrom,
          GeoRouter.runStrategy, hs, List.range_succ]⟩
    · rw [Bool.not_eq_true] at hs
      cases h0 : oc 0 with
      | some cc => exact ⟨0, by omega,
          by simp [GeoRouter.performDetection, GeoRouter.runChainFrom,
            GeoRouter.runStrategy, hs, h0, List.range_succ]⟩
      | none =>
        cases h1 : oc 1 with
        | some cc => exact ⟨1, by omega,
            by simp [GeoRouter.performDetection, GeoRouter.runChainFrom,
              GeoRouter.runStrategy, hs, h0, h1, List.range_succ]⟩
        | none =>
          cases h2 : oc 2 with
          | some cc => exact ⟨2, by omega,
              by simp [GeoRouter.performDetection, GeoRouter.runChainFrom,
                GeoRouter.runStrategy, hs, h0, h1, h2, List.range_succ]⟩
          | none => exact ⟨3, by omega,
              by simp [GeoRouter.performDetection, GeoRouter.runChainFrom,
                GeoRouter.runStrategy, hs, h0, h1, h2, List.range_succ]⟩
  · intro hs h1
    cases h0 : oc 0 with
    | some cc =>
      refine ⟨?_, ?_, fun h => absurd h (by simp [h0])⟩ <;>
        simp [GeoRouter.performDetection, GeoRouter.runChainFrom,
          GeoRouter.runStrategy, hs, h0]
    | none =>
      refine ⟨?_, ?_, fun _ => ?_⟩ <;>
        simp [GeoRouter.performDetection, GeoRouter.runChainFrom,
          GeoRouter.runStrategy, hs, h0, h1]

/-- Witness for C4: oracle where strategy 1 fails and strategy 2 returns
`"US"`, on a public IP. -/
theorem C4_chain_order_witness :
    GeoRouter.performDetection (fun i => if i = 1 then some "US" else none) "8.8.8.8" =
      (.ok (GeoRouter.buildGeoResult "US"), ([0, 1], [0, 1])) :=
  ((C4_chain_order (fun i => if i = 1 then some "US" else none) "8.8.8.8" "US").2
    (by decide) rfl).2.2 rfl

/-- C5 counterexample: resolving the private-range IP `"10.0.0.5"` does
consult the network.  The loopback/empty guard does not cover it, so the
primary strategy issues a fetch; with every lookup failing, all three
network strategies fetch before the local heuristic fires. -/
theorem C5_counterexample :
    GeoRouter.shortcutCheck "10.0.0.5" = false ∧
    (GeoRouter.performDetection ocAllFail "10.0.0.5").2.2 = [0, 1, 2] ∧
    (GeoRouter.performDetection ocAllFail "10.0.0.5").2.2 ≠ [] ∧
    (GeoRouter.performDetection (fun _ => some "US") "10.0.0.5").2.2 = [0] :=
  ⟨by decide, by decide, by decide, by decide⟩

/-- C5 amended: resolving `"10.0.0.5"` attempts the network strategies first
(the no-network shortcut covers only empty/loopback IPs); only when all
three network lookups fail does the local heuristic fire, and since the
private-IP range check accepts `10.0.0.5`, the result is exactly the
private-IP hardcoded default `buildGeoResult "CN"`. -/
theorem C5_private_ip_after_network_failure (oc : Nat → Option String)
    (h : ∀ i, oc i = none) :
    GeoRouter.performDetection oc "10.0.0.5" =
      (.ok (GeoRouter.buildGeoResult "CN"), ([0, 1, 2, 3], [0, 1, 2])) ∧
    GeoRouter.detectLocally "10.0.0.5" = GeoRouter.buildGeoResult "CN" ∧
    GeoRouter.isPrivateIP "10.0.0.5" = true := by
  refine ⟨?_, by decide, by decide⟩
  have h0 := h 0
  have h1 := h 1
  have h2 := h 2
  simp only [GeoRouter.performDetection, GeoRouter.runChainFrom,
    GeoRouter.runStrategy, h0, h1, h2]
  rfl

/-- Witness for the amended C5 at the all-failing oracle. -/
theorem C5_private_ip_after_network_failure_witness :
    GeoRouter.performDetection ocAllFail "10.0.0.5" =
      (.ok (GeoRouter.buildGeoResult "CN"), ([0, 1, 2, 3], [0, 1, 2])) :=
  (C5_private_ip_after_network_failure ocAllFail (fun _ => rfl)).1

/-- Reading a key back from `mapSet` yields the value just written. -/
theorem mapGet_mapSet_self {α : Type} (k : String) (v : α) (l : List (String × α)) :
    mapGet k (mapSet k v l) = some v := by
  induction l with
  | nil => simp [mapGet, mapSet]
  | cons p rest ih =>
    obtain ⟨k', v'⟩ := p
    by_cases h : k' = k
    · simp [mapGet, mapSet, h]
    · simp [mapGet, mapSet, h, ih]

/-- After `mapDelete`, the key is absent. -/
theorem mapGet_mapDelete_self {α : Type} (k : String) (l : List (String × α)) :
    mapGet k (mapDelete k l) = none := by
  induction l with
  | nil => rfl
  | cons p rest ih =>
    obtain ⟨k', v'⟩ := p
    by_cases h : k' = k
    · simp [mapDelete, h, ih]
    · simp [mapDelete, mapGet, h, ih]

/-- With no fresh cache entry and a pending chain `k` for `ip`, every
`detect` prefix joins `k` and leaves the state untouched. -/
theorem detectStep_joins (ip : String) (now : Nat) (ttlOpt : Option Nat)
    (s : RouterState) (k : Nat) (hc : mapGet ip s.cache = none)
    (hp : mapGet ip s.pending = some k) :
    GeoRouter.detectStep ip now ttlOpt s = (.joined k, s) := by
  unfold GeoRouter.detectStep GeoRouter.detectStepMiss
  rw [hc, hp]

/-- Iterated version of `detectStep_joins`. -/
theorem runCalls_joins (ip : String) (now : Nat) (ttlOpt : Option Nat)
    (n : Nat) (s : RouterState) (k : Nat) (hc : mapGet ip s.cache = none)
    (hp : mapGet ip s.pending = some k) :
    GeoRouter.runCalls ip now ttlOpt n s =
      (List.replicate n (.joined k), s) := by
  induction n with
  | zero => rfl
  | succ n ih =>
    unfold GeoRouter.runCalls
    rw [detectStep_joins ip now ttlOpt s k hc hp]
    simp only [ih, List.replicate_succ]

/-- C2: per-IP in-flight coalescing.  From a state where `ip` has neither a
cache entry nor a pending chain, `n + 1` concurrent `detect` calls (all of
whose synchronous prefixes run before the chain settles) produce exactly one
new chain execution — the first call starts chain `s.chainCount`, every
later call joins that same chain — and when the chain resolves with a
descriptor `r`, every caller receives exactly `r`; the in-flight entry is
removed unconditionally on completion, whether the chain resolved or
rejected. -/
theorem C2_inflight_coalescing (s : RouterState) (ip : String) (now : Nat)
    (ttlOpt : Option Nat) (n : Nat)
    (hc : mapGet ip s.cache = none) (hp : mapGet ip s.pending = none) :
    (GeoRouter.runCalls ip now ttlOpt (n + 1) s).1 =
      .started s.chainCount :: List.replicate n (.joined s.chainCount) ∧
    (GeoRouter.runCalls ip now ttlOpt (n + 1) s).2.chainCount = s.chainCount + 1 ∧
    (∀ o ∈ (GeoRouter.runCalls ip now ttlOpt (n + 1) s).1, ∀ r : GeoResult,
      GeoRouter.callerResult o (.ok r) = .ok r) ∧
    (∀ res : Except Unit GeoResult, ∀ s' : RouterState, ∀ now' : Nat,
      mapGet ip ((GeoRouter.detectComplete ip res now' s').2).pending = none) := by
  have hstep : GeoRouter.detectStep ip now ttlOpt s =
      (.started s.chainCount,
       { s with pending := mapSet ip s.chainCount s.pending,
                chainCount := s.chainCount + 1 }) := by
    unfold GeoRouter.detectStep GeoRouter.detectStepMiss
    rw [hc, hp]
  have hrun : GeoRouter.runCalls ip now ttlOpt (n + 1) s =
      (.started s.chainCount :: List.replicate n (.joined s.chainCount),
       { s with pending := mapSet ip s.chainCount s.pending,
                chainCount := s.chainCount + 1 }) := by
    simp only [GeoRouter.runCalls, hstep]
    rw [runCalls_joins ip now ttlOpt n
      { s with pending := mapSet ip s.chainCount s.pending,
               chainCount := s.chainCount + 1 }
      s.chainCount hc (mapGet_mapSet_self ip s.chainCount s.pending)]
  refine ⟨by rw [hrun], by rw [hrun], ?_, ?_⟩
  · intro o ho r
    rw [hrun] at ho
    rcases List.mem_cons.mp ho with h | h
    · subst h; rfl
    · rw [List.eq_of_mem_replicate h]; rfl
  · intro res s' now'
    cases res with
    | ok r => simp [GeoRouter.detectComplete, mapGet_mapDelete_self]
    | error e => simp [GeoRouter.detectComplete, mapGet_mapDelete_self]

/-- Witness for C2: three concurrent calls for a never-before-seen IP from a
fresh router. -/
theorem C2_inflight_coalescing_witness :
    (GeoRouter.runCalls "8.8.8.8" 0 none 3 (⟨[], [], 0⟩ : RouterState)).1 =
      [.started 0, .joined 0, .joined 0] ∧
    (GeoRouter.runCalls "8.8.8.8" 0 none 3 (⟨[], [], 0⟩ : RouterState)).2.chainCount = 1 :=
  ⟨(C2_inflight_coalescing ⟨[], [], 0⟩ "8.8.8.8" 0 none 2 rfl rfl).1,
   (C2_inflight_coalescing ⟨[], [], 0⟩ "8.8.8.8" 0 none 2 rfl rfl).2.1⟩

/-- C6: cache TTL behaviour.  A cache entry younger than the effective TTL
(one hour by default, overridable per call) is served directly with no chain
execution and no state change; an entry at least TTL old is treated as a
miss, so the next call starts a fresh chain whose successful completion
overwrites the entry. -/
theorem C6_cache_ttl (s : RouterState) (ip : String) (r : GeoResult)
    (ts now : Nat) (ttlOpt : Option Nat)
    (hc : mapGet ip s.cache = some ⟨r, ts⟩) :
    ((now : Int) - ts < (GeoRouter.effectiveTTL ttlOpt : Int) →
      GeoRouter.detectStep ip now ttlOpt s = (.served r, s)) ∧
    (¬((now : Int) - ts < (GeoRouter.effectiveTTL ttlOpt : Int)) →
      mapGet ip s.pending = none →
      (GeoRouter.detectStep ip now ttlOpt s).1 = .started s.chainCount ∧
      (GeoRouter.detectStep ip now ttlOpt s).2.chainCount = s.chainCount + 1 ∧
      (∀ r' : GeoResult, ∀ now' : Nat,
        mapGet ip ((GeoRouter.detectComplete ip (.ok r') now'
          (GeoRouter.detectStep ip now ttlOpt s).2).2).cache = some ⟨r', now'⟩)) ∧
    GeoRouter.CACHE_TTL = 1000 * 60 * 60 ∧
    GeoRouter.effectiveTTL none = GeoRouter.CACHE_TTL ∧
    (∀ t : Nat, t ≠ 0 → GeoRouter.effectiveTTL (some t) = t) := by
  refine ⟨?_, ?_, rfl, rfl, ?_⟩
  · intro hfresh
    unfold GeoRouter.detectStep
    rw [hc]
    simp only [hfresh, if_pos]
  · intro hstale hp
    have hstep : GeoRouter.detectStep ip now ttlOpt s =
        (.started s.chainCount,
         { s with pending := mapSet ip s.chainCount s.pending,
                  chainCount := s.chainCount + 1 }) := by
      unfold GeoRouter.detectStep GeoRouter.detectStepMiss
      rw [hc, hp]
      simp only [hstale, if_neg, not_false_iff]
    refine ⟨by rw [hstep], by rw [hstep], ?_⟩
    intro r' now'
    rw [hstep]
    simp [GeoRouter.detectComplete, mapGet_mapSet_self]
  · intro t ht
    simp [GeoRouter.effectiveTTL, ht]

/-- Witness for C6: a fresh and a stale entry for the same cached result. -/
theorem C6_cache_ttl_witness :
    GeoRouter.detectStep "8.8.8.8" 10 none
        (⟨[("8.8.8.8", ⟨GeoRouter.getDefaultGeoResult, 0⟩)], [], 0⟩ : RouterState) =
      (.served GeoRouter.getDefaultGeoResult,
        ⟨[("8.8.8.8", ⟨GeoRouter.getDefaultGeoResult, 0⟩)], [], 0⟩) ∧
    (GeoRouter.detectStep "8.8.8.8" 7200000 none
        (⟨[("8.8.8.8", ⟨GeoRouter.getDefaultGeoResult, 0⟩)], [], 0⟩ : RouterState)).1 =
      .started 0 :=
  ⟨(C6_cache_ttl ⟨[("8.8.8.8", ⟨GeoRouter.getDefaultGeoResult, 0⟩)], [], 0⟩
      "8.8.8.8" GeoRouter.getDefaultGeoResult 0 10 none rfl).1 (by decide),
   ((C6_cache_ttl ⟨[("8.8.8.8", ⟨GeoRouter.getDefaultGeoResult, 0⟩)], [], 0⟩
      "8.8.8.8" GeoRouter.getDefaultGeoResult 0 7200000 none rfl).2.1
      (by decide) rfl).1⟩

/-- C7 counterexample: a failed resolution IS cached.  From a fresh router,
a call for `"1.2.3.4"` starts chain 0; when that chain rejects at time 5 the
default descriptor is written into the cache under the full TTL, and a call
at time 3000000 (within the hour) is served from the cache instead of
attempting the chain anew. -/
theorem C7_counterexample :
    (GeoRouter.detectStep "1.2.3.4" 0 none (⟨[], [], 0⟩ : RouterState)).1 =
      .started 0 ∧
    mapGet "1.2.3.4"
        ((GeoRouter.detectComplete "1.2.3.4" (.error ()) 5
          (GeoRouter.detectStep "1.2.3.4" 0 none (⟨[], [], 0⟩ : RouterState)).2).2).cache =
      some ⟨GeoRouter.getDefaultGeoResult, 5⟩ ∧
    (GeoRouter.detectStep "1.2.3.4" 3000000 none
        ((GeoRouter.detectComplete "1.2.3.4" (.error ()) 5
          (GeoRouter.detectStep "1.2.3.4" 0 none (⟨[], [], 0⟩ : RouterState)).2).2)).1 =
      .served GeoRouter.getDefaultGeoResult ∧
    (GeoRouter.detectStep "1.2.3.4" 3000000 none
        ((GeoRouter.detectComplete "1.2.3.4" (.error ()) 5
          (GeoRouter.detectStep "1.2.3.4" 0 none (⟨[], [], 0⟩ : RouterState)).2).2)).2.chainCount = 1 :=
  ⟨rfl, rfl, rfl, rfl⟩

/-- C7 amended: a failed resolution is cached as the default descriptor with
the current timestamp, so a subsequent `detect` call for the same IP within
the TTL is served that cached default — with no new chain execution —
rather than attempting the chain anew; only after TTL expiry is the chain
retried. -/
theorem C7_failure_is_cached (s : RouterState) (ip : String) (now : Nat) :
    mapGet ip ((GeoRouter.detectComplete ip (.error ()) now s).2).cache =
      some ⟨GeoRouter.getDefaultGeoResult, now⟩ ∧
    (∀ now₂ : Nat, ∀ ttlOpt : Option Nat,
      (now₂ : Int) - now < (GeoRouter.effectiveTTL ttlOpt : Int) →
      GeoRouter.detectStep ip now₂ ttlOpt
          ((GeoRouter.detectComplete ip (.error ()) now s).2) =
        (.served GeoRouter.getDefaultGeoResult,
          (GeoRouter.detectComplete ip (.error ()) now s).2)) := by
  have hcache : mapGet ip ((GeoRouter.detectComplete ip (.error ()) now s).2).cache =
      some ⟨GeoRouter.getDefaultGeoResult, now⟩ := by
    simp [GeoRouter.detectComplete, mapGet_mapSet_self]
  refine ⟨hcache, ?_⟩
  intro now₂ ttlOpt hfresh
  unfold GeoRouter.detectStep
  rw [hcache]
  simp only [hfresh, if_pos]

/-- Witness for the amended C7 from a fresh router at concrete times. -/
theorem C7_failure_is_cached_witness :
    GeoRouter.detectStep "1.2.3.4" 100 none
        ((GeoRouter.detectComplete "1.2.3.4" (.error ()) 5 (⟨[], [], 0⟩ : RouterState)).2) =
      (.served GeoRouter.getDefaultGeoResult,
        (GeoRouter.detectComplete "1.2.3.4" (.error ()) 5 (⟨[], [], 0⟩ : RouterState)).2) :=
  (C7_failure_is_cached ⟨[], [], 0⟩ "1.2.3.4" 5).2 100 none (by decide)

/-- C8 counterexample: `getAuth` memoizes one global instance, not one per
region.  After `getAuth(CN)` constructs the CloudBase adapter, a subsequent
`getAuth(INTL)` returns that very same CloudBase instance instead of a
Supabase adapter appropriate to the requested region. -/
theorem C8_counterexample :
    (getAuth (some .INTL) false
        (getAuth (some .CN) false (⟨none, 0⟩ : AuthModuleState)).2).1 =
      (getAuth (some .CN) false (⟨none, 0⟩ : AuthModuleState)).1 ∧
    (getAuth (some .CN) false (⟨none, 0⟩ : AuthModuleState)).1.kind =
      AuthAdapterKind.cloudbase ∧
    (getAuth (some .INTL) false
        (getAuth (some .CN) false (⟨none, 0⟩ : AuthModuleState)).2).1.kind ≠
      AuthAdapterKind.supabase ∧
    (createAuthAdapter .INTL 1).kind = AuthAdapterKind.supabase :=
  ⟨rfl, rfl, by decide, rfl⟩

/-- C8 amended: adapter construction is memoized as a single process-wide
singleton, keyed on nothing: the first `getAuth` call constructs the
adapter for its own target region (CloudBase for CN, Supabase for INTL) and
retains it, and every subsequent call returns that identical instance
regardless of the region it asks for. -/
theorem C8_single_global_instance :
    (∀ g : AuthModuleState, ∀ r : DeploymentRegion, ∀ d : Bool,
      g.authInstance = none →
      getAuth (some r) d g =
        (createAuthAdapter r g.nextObjId,
         ⟨some (createAuthAdapter r g.nextObjId), g.nextObjId + 1⟩)) ∧
    (∀ g : AuthModuleState, ∀ a : AuthAdapterInstance,
      ∀ rOpt : Option DeploymentRegion, ∀ d : Bool,
      g.authInstance = some a → getAuth rOpt d g = (a, g)) ∧
    (∀ i : Nat, (createAuthAdapter .CN i).kind = AuthAdapterKind.cloudbase ∧
      (createAuthAdapter .INTL i).kind = AuthAdapterKind.supabase) := by
  refine ⟨?_, ?_, fun i => ⟨rfl, rfl⟩⟩
  · intro g r d hg
    unfold getAuth
    rw [hg]
  · intro g a rOpt d hg
    unfold getAuth
    rw [hg]

/-- Witness for the amended C8: first call constructs for CN, second call
returns the identical instance even when asked for INTL. -/
theorem C8_single_global_instance_witness :
    getAuth (some .CN) false (⟨none, 0⟩ : AuthModuleState) =
      (createAuthAdapter .CN 0, ⟨some (createAuthAdapter .CN 0), 1⟩) ∧
    getAuth (some .INTL) false (⟨some (createAuthAdapter .CN 0), 1⟩ : AuthModuleState) =
      (createAuthAdapter .CN 0, ⟨some (createAuthAdapter .CN 0), 1⟩) :=
  ⟨C8_single_global_instance.1 ⟨none, 0⟩ .CN false rfl,
   C8_single_global_instance.2.1 ⟨some (createAuthAdapter .CN 0), 1⟩
     (createAuthAdapter .CN 0) (some .INTL) false rfl⟩
